import Mathlib

/-!
# Verification of the player-controller and keyboard-tracker logic

This file is a shallow embedding of the two near-duplicate source files of
the repository (`src/src/app/page.tsx`, the untyped variant, and
`src/unnamed/part_000`, the typed variant).  The per-frame player movement
logic is identical in the two variants (with the typed variant's constants
`PLAYER_CONFIG.moveSpeed = 5`, `jumpForce = 5`, `jumpThreshold = 0.1`
matching the literals of the untyped one), so it is embedded once.  The
keyboard event handlers and the physics-subscription effects differ between
the variants and are embedded separately per variant.

Numbers are idealised as exact real numbers (the source computes with
JavaScript IEEE doubles); the discrete keyboard model is fully computable.
-/

set_option autoImplicit false

namespace ThreeJsBasic

/-! ## Keyboard state

`page.tsx` keeps `useState({ w: false, s: false, a: false, d: false,
space: false })`; the typed variant declares `interface KeyState` with the
same five boolean fields.  Because the untyped variant's handler
`setKeys((prev) => ({ ...prev, [key]: true }))` can add properties beyond
the five declared ones to the state object, the embedding also carries the
list of such extra properties (`extra`), in insertion order, so that the
JavaScript object-spread semantics is represented faithfully. -/

structure KeyState where
  w : Bool
  s : Bool
  a : Bool
  d : Bool
  space : Bool
  extra : List (String × Bool)
deriving DecidableEq, Repr

/-- The initial keyboard state: all five flags false, no extra properties
(`useState` initialiser in both variants). -/
def initKeyState : KeyState :=
  { w := false, s := false, a := false, d := false, space := false, extra := [] }

/-- JavaScript object-spread update of the extra-property list:
`{ ...prev, [key]: b }` keeps an existing property in place with the new
value, and appends a fresh property at the end. -/
def setExtra : List (String × Bool) → String → Bool → List (String × Bool)
  | [], k, b => [(k, b)]
  | (k0, b0) :: rest, k, b =>
    if k0 = k then (k0, b) :: rest else (k0, b0) :: setExtra rest k b

/-- `{ ...prev, [key]: b }` on the keyboard-state object: a computed
property named after one of the five declared fields updates that field,
any other name updates or appends an extra property. -/
def setKey (st : KeyState) (key : String) (b : Bool) : KeyState :=
  if key = "w" then { st with w := b }
  else if key = "s" then { st with s := b }
  else if key = "a" then { st with a := b }
  else if key = "d" then { st with d := b }
  else if key = "space" then { st with space := b }
  else { st with extra := setExtra st.extra key b }

/-- `event.key.toLowerCase()`: lower-case every character of the key
string. -/
def jsToLower (s : String) : String :=
  String.mk (s.data.map Char.toLower)

/-- The own properties of the keyboard-state object, as tested by the
JavaScript `in` operator in the typed variant's guard `key in keys`
(prototype-chain properties are not modelled: no keyboard `event.key`
value collides with them). -/
def KeyState.props (st : KeyState) : List String :=
  ["w", "s", "a", "d", "space"] ++ st.extra.map Prod.fst

/-- `key in keys` of the typed variant. -/
def keyIn (key : String) (st : KeyState) : Bool :=
  key ∈ st.props

/-- `handleKeyDown` of `page.tsx` (lines 44-51): lower-case the event key;
the space character sets the `space` flag, ANY other key is written into
the state object via a computed property, with no membership guard. -/
def handleKeyDownPage (st : KeyState) (eventKey : String) : KeyState :=
  let key := jsToLower eventKey
  if key = " " then { st with space := true }
  else setKey st key true

/-- `handleKeyUp` of `page.tsx` (lines 53-60). -/
def handleKeyUpPage (st : KeyState) (eventKey : String) : KeyState :=
  let key := jsToLower eventKey
  if key = " " then { st with space := false }
  else setKey st key false

/-- `handleKeyDown` of the typed variant (`part_000` lines 95-102): the
space character sets the `space` flag, any other key is written only when
`key in keys` holds. -/
def handleKeyDownPart (st : KeyState) (eventKey : String) : KeyState :=
  let key := jsToLower eventKey
  if key = " " then { st with space := true }
  else if keyIn key st then setKey st key true
  else st

/-- `handleKeyUp` of the typed variant (`part_000` lines 104-111). -/
def handleKeyUpPart (st : KeyState) (eventKey : String) : KeyState :=
  let key := jsToLower eventKey
  if key = " " then { st with space := false }
  else if keyIn key st then setKey st key false
  else st

/-! ## Physics-subscription lifecycle

`page.tsx` subscribes to `api.position` (lines 20-22) and `api.velocity`
(lines 33-35) in two `useEffect` calls whose bodies return no cleanup
function, so React runs nothing on unmount.  The typed variant
(`part_000` lines 143-155) subscribes to both in one effect and returns a
cleanup that calls both unsubscribe functions.  The model counts the
active subscriptions per channel; mounting runs the effect bodies and
teardown runs whatever cleanup the effect returned. -/

structure SubscriptionState where
  posSubs : Nat
  velSubs : Nat
deriving DecidableEq, Repr

/-- Effect bodies of `page.tsx` on mount: both `subscribe` calls run. -/
def pageSubscriptionEffects (s : SubscriptionState) : SubscriptionState :=
  { s with posSubs := s.posSubs + 1, velSubs := s.velSubs + 1 }

/-- Teardown of `page.tsx`: the two subscription effects return no cleanup
function, so nothing is unsubscribed. -/
def pageSubscriptionCleanup (s : SubscriptionState) : SubscriptionState :=
  s

/-- Effect body of the typed variant on mount: both `subscribe` calls run. -/
def partSubscriptionEffects (s : SubscriptionState) : SubscriptionState :=
  { s with posSubs := s.posSubs + 1, velSubs := s.velSubs + 1 }

/-- Teardown of the typed variant: the returned cleanup calls
`unsubscribePos()` and `unsubscribeVel()`. -/
def partSubscriptionCleanup (s : SubscriptionState) : SubscriptionState :=
  { s with posSubs := s.posSubs - 1, velSubs := s.velSubs - 1 }

/-! ## Vectors and rotation (the THREE.js operations the frame loop uses)

`THREE.Vector3.normalize()` is `divideScalar(length() || 1)`;
`divideScalar(s)` is `multiplyScalar(1 / s)`; `applyEuler(e)` applies the
quaternion built by `Quaternion.setFromEuler` (the camera's Euler order is
the default `XYZ`).  Components are idealised as exact reals. -/

noncomputable section

structure Vec3 where
  x : ℝ
  y : ℝ
  z : ℝ

/-- `Vector3.subVectors` / componentwise subtraction. -/
def Vec3.sub (v u : Vec3) : Vec3 :=
  ⟨v.x - u.x, v.y - u.y, v.z - u.z⟩

/-- `Vector3.multiplyScalar`. -/
def Vec3.multiplyScalar (v : Vec3) (s : ℝ) : Vec3 :=
  ⟨v.x * s, v.y * s, v.z * s⟩

/-- `Vector3.length()`: the Euclidean norm. -/
def Vec3.length (v : Vec3) : ℝ :=
  Real.sqrt (v.x * v.x + v.y * v.y + v.z * v.z)

/-- `Vector3.divideScalar(s)` = `multiplyScalar(1 / s)`. -/
def Vec3.divideScalar (v : Vec3) (s : ℝ) : Vec3 :=
  v.multiplyScalar (1 / s)

/-- The JavaScript expression `a || 1` on a number: `1` when `a` is zero
(falsy), otherwise `a` itself. -/
def jsOrOne (a : ℝ) : ℝ :=
  if a = 0 then 1 else a

/-- `Vector3.normalize()` = `divideScalar(length() || 1)`: a zero-length
vector is divided by `1`, yielding the zero vector with no error. -/
def Vec3.normalize (v : Vec3) : Vec3 :=
  v.divideScalar (jsOrOne v.length)

/-- A THREE.js Euler angle triple (the camera's rotation), order `XYZ`. -/
structure Euler where
  x : ℝ
  y : ℝ
  z : ℝ

structure Quat where
  x : ℝ
  y : ℝ
  z : ℝ
  w : ℝ

/-- `Quaternion.setFromEuler` for order `XYZ`. -/
def quatFromEulerXYZ (e : Euler) : Quat :=
  let c1 := Real.cos (e.x / 2)
  let c2 := Real.cos (e.y / 2)
  let c3 := Real.cos (e.z / 2)
  let s1 := Real.sin (e.x / 2)
  let s2 := Real.sin (e.y / 2)
  let s3 := Real.sin (e.z / 2)
  ⟨s1 * c2 * c3 + c1 * s2 * s3,
   c1 * s2 * c3 - s1 * c2 * s3,
   c1 * c2 * s3 + s1 * s2 * c3,
   c1 * c2 * c3 - s1 * s2 * s3⟩

/-- `Vector3.applyQuaternion`: `t = 2 (q.xyz × v)`,
`v + q.w t + q.xyz × t`. -/
def Vec3.applyQuaternion (v : Vec3) (q : Quat) : Vec3 :=
  let tx := 2 * (q.y * v.z - q.z * v.y)
  let ty := 2 * (q.z * v.x - q.x * v.z)
  let tz := 2 * (q.x * v.y - q.y * v.x)
  ⟨v.x + q.w * tx + q.y * tz - q.z * ty,
   v.y + q.w * ty + q.z * tx - q.x * tz,
   v.z + q.w * tz + q.x * ty - q.y * tx⟩

/-- `Vector3.applyEuler(e)` = `applyQuaternion(setFromEuler(e))`. -/
def Vec3.applyEuler (v : Vec3) (e : Euler) : Vec3 :=
  v.applyQuaternion (quatFromEulerXYZ e)

/-! ## The per-frame player-controller step

Identical in both variants (`page.tsx` lines 72-92, `part_000` lines
158-189).  The snapshots `velocity.current` and `position.current` are
only written by the physics engine's subscription callbacks, which do not
run inside the frame callback, so within one frame they are fixed
inputs. -/

/-- `PLAYER_CONFIG.moveSpeed` / the literal `5` of `multiplyScalar(5)`. -/
def moveSpeed : ℝ := 5

/-- `PLAYER_CONFIG.jumpForce` / the literal `5`. -/
def jumpForce : ℝ := 5

/-- `PLAYER_CONFIG.jumpThreshold` / the literal `0.1`. -/
def jumpThreshold : ℝ := 0.1

/-- JavaScript `Number(b)` on a boolean. -/
def numOfBool (b : Bool) : ℝ :=
  if b then 1 else 0

/-- `frontVector.set(0, 0, Number(keys.s) - Number(keys.w))`. -/
def frontVector (k : KeyState) : Vec3 :=
  ⟨0, 0, numOfBool k.s - numOfBool k.w⟩

/-- `sideVector.set(Number(keys.a) - Number(keys.d), 0, 0)`. -/
def sideVector (k : KeyState) : Vec3 :=
  ⟨numOfBool k.a - numOfBool k.d, 0, 0⟩

/-- The direction after `subVectors(frontVector, sideVector).normalize()`,
before scaling and camera rotation. -/
def normalizedDirection (k : KeyState) : Vec3 :=
  Vec3.normalize (Vec3.sub (frontVector k) (sideVector k))

/-- The full direction chain: normalize, `multiplyScalar(moveSpeed)`,
`applyEuler(camera.rotation)`. -/
def direction (k : KeyState) (rot : Euler) : Vec3 :=
  Vec3.applyEuler (Vec3.multiplyScalar (normalizedDirection k) moveSpeed) rot

/-- The inputs the frame callback reads: the keyboard state, the cached
velocity and position snapshots last reported by the physics engine, and
the camera rotation. -/
structure FrameInput where
  keys : KeyState
  vel : Vec3
  pos : Vec3
  rot : Euler

/-- Bundle the four per-frame inputs. -/
def mkInput (k : KeyState) (vel pos : Vec3) (rot : Euler) : FrameInput :=
  ⟨k, vel, pos, rot⟩

/-- The first velocity command:
`api.velocity.set(direction.x, velocity.current[1], direction.z)`. -/
def moveCommand (inp : FrameInput) : Vec3 :=
  ⟨(direction inp.keys inp.rot).x, inp.vel.y, (direction inp.keys inp.rot).z⟩

/-- The jump command:
`api.velocity.set(velocity.current[0], jumpForce, velocity.current[2])`. -/
def jumpCommand (inp : FrameInput) : Vec3 :=
  ⟨inp.vel.x, jumpForce, inp.vel.z⟩

/-- What one run of the `useFrame` callback produces: the velocity
commands issued to the physics engine, in order, and the camera position
written at the end. -/
structure FrameResult where
  commands : List Vec3
  cameraPos : Vec3

open Classical in
/-- One run of the `useFrame` callback: issue the movement command; if
`keys.space && Math.abs(velocity.current[1]) < jumpThreshold`, issue the
jump command; copy `position.current` onto the camera. -/
def runFrame (inp : FrameInput) : FrameResult :=
  let cmds := [moveCommand inp]
  let cmds2 := if inp.keys.space ∧ |inp.vel.y| < jumpThreshold
    then cmds ++ [jumpCommand inp] else cmds
  { commands := cmds2, cameraPos := inp.pos }

/-- Follows the words of the spec and of claim C1, not the code: the
direction vector written as `normalize((backward−forward), 0,
(left−right))` read componentwise, i.e. x = backward−forward = s−w and
z = left−right = a−d. -/
def specClaimDirection (k : KeyState) : Vec3 :=
  Vec3.normalize ⟨numOfBool k.s - numOfBool k.w, 0, numOfBool k.a - numOfBool k.d⟩

/-- Keyboard state with only the forward key `w` pressed. -/
def keysW : KeyState :=
  { initKeyState with w := true }

/-- Keyboard state with the forward key and the jump key pressed. -/
def keysWSpace : KeyState :=
  { initKeyState with w := true, space := true }

/-- The identity camera rotation (yaw = pitch = roll = 0). -/
def eulerZero : Euler := ⟨0, 0, 0⟩

/-- A concrete frame input: forward and jump pressed, the engine last
reported the body at rest (so the grounded heuristic holds), camera
unrotated. -/
def inpJump : FrameInput :=
  { keys := keysWSpace, vel := ⟨0, 0, 0⟩, pos := ⟨0, 0, 0⟩, rot := eulerZero }

end

/-! ## Helper lemmas -/

theorem normalize_zero : Vec3.normalize ⟨0, 0, 0⟩ = ⟨0, 0, 0⟩ := by
  simp [Vec3.normalize, Vec3.divideScalar, Vec3.multiplyScalar, Vec3.length, jsOrOne]

theorem normalize_of_length_one (v : Vec3) (h : v.length = 1) :
    v.normalize = v := by
  obtain ⟨x, y, z⟩ := v
  simp [Vec3.normalize, Vec3.divideScalar, Vec3.multiplyScalar, jsOrOne, h]

theorem length_unitNegZ : Vec3.length ⟨0, 0, -1⟩ = 1 := by
  have h : (0 : ℝ) * 0 + 0 * 0 + (-1) * (-1) = 1 := by norm_num
  rw [Vec3.length, h, Real.sqrt_one]

theorem length_negX : Vec3.length ⟨-1, 0, 0⟩ = 1 := by
  have h : (-1 : ℝ) * (-1) + 0 * 0 + 0 * 0 = 1 := by norm_num
  rw [Vec3.length, h, Real.sqrt_one]

theorem applyEuler_zeroVec (e : Euler) :
    Vec3.applyEuler ⟨0, 0, 0⟩ e = ⟨0, 0, 0⟩ := by
  simp [Vec3.applyEuler, Vec3.applyQuaternion]

theorem applyEuler_identity (v : Vec3) : Vec3.applyEuler v eulerZero = v := by
  obtain ⟨x, y, z⟩ := v
  simp [Vec3.applyEuler, Vec3.applyQuaternion, quatFromEulerXYZ, eulerZero]

theorem normalizedDirection_onlyW (k : KeyState) (hw : k.w = true)
    (hs : k.s = false) (ha : k.a = false) (hd : k.d = false) :
    normalizedDirection k = ⟨0, 0, -1⟩ := by
  have hsub : Vec3.sub (frontVector k) (sideVector k) = ⟨0, 0, -1⟩ := by
    simp [Vec3.sub, frontVector, sideVector, hw, hs, ha, hd, numOfBool]
  rw [normalizedDirection, hsub]
  exact normalize_of_length_one _ length_unitNegZ

theorem direction_onlyW (k : KeyState) (hw : k.w = true)
    (hs : k.s = false) (ha : k.a = false) (hd : k.d = false) :
    direction k eulerZero = ⟨0, 0, -5⟩ := by
  rw [direction, normalizedDirection_onlyW k hw hs ha hd]
  have h : Vec3.multiplyScalar ⟨0, 0, -1⟩ moveSpeed = ⟨0, 0, -5⟩ := by
    simp [Vec3.multiplyScalar, moveSpeed]
  rw [h, applyEuler_identity]

theorem runFrame_commands_jump (inp : FrameInput)
    (h : inp.keys.space ∧ |inp.vel.y| < jumpThreshold) :
    (runFrame inp).commands = [moveCommand inp, jumpCommand inp] := by
  simp only [runFrame]
  rw [if_pos h]
  rfl

theorem runFrame_commands_noJump (inp : FrameInput)
    (h : ¬(inp.keys.space ∧ |inp.vel.y| < jumpThreshold)) :
    (runFrame inp).commands = [moveCommand inp] := by
  simp only [runFrame]
  rw [if_neg h]

theorem runFrame_head (inp : FrameInput) :
    (runFrame inp).commands.head? = some (moveCommand inp) := by
  simp only [runFrame]
  split <;> simp

/-! ## Claims -/

/-- C1, counterexample: with only the forward key `w` pressed, the code's
pre-rotation direction is `(0, 0, −1)`, while the claim's formula
`normalize((backward−forward), 0, (left−right))` read componentwise gives
`normalize(−1, 0, 0) = (−1, 0, 0)`; the two differ, so the claimed formula
does not match the code. -/
theorem c1_counterexample :
    normalizedDirection keysW ≠ specClaimDirection keysW := by
  have h1 : normalizedDirection keysW = ⟨0, 0, -1⟩ :=
    normalizedDirection_onlyW keysW rfl rfl rfl rfl
  have hv : (⟨numOfBool keysW.s - numOfBool keysW.w, 0,
      numOfBool keysW.a - numOfBool keysW.d⟩ : Vec3) = ⟨-1, 0, 0⟩ := by
    norm_num [keysW, initKeyState, numOfBool]
  have h2 : specClaimDirection keysW = ⟨-1, 0, 0⟩ := by
    rw [specClaimDirection, hv]
    exact normalize_of_length_one _ length_negX
  rw [h1, h2]
  intro h
  rw [Vec3.mk.injEq] at h
  norm_num at h

/-- C1, amended: for every keyboard state, the movement direction computed
each frame before camera rotation equals
`normalize((right−left), 0, (backward−forward))` — i.e. the x component
carries `d−a` and the z component carries `s−w` — and it equals the zero
vector when the front axis `s−w` and the side axis `a−d` are both zero. -/
theorem c1_direction_formula (k : KeyState) :
    normalizedDirection k =
      Vec3.normalize ⟨numOfBool k.d - numOfBool k.a, 0,
        numOfBool k.s - numOfBool k.w⟩ ∧
    (numOfBool k.s - numOfBool k.w = 0 ∧ numOfBool k.a - numOfBool k.d = 0 →
      normalizedDirection k = ⟨0, 0, 0⟩) := by
  have hsub : Vec3.sub (frontVector k) (sideVector k) =
      ⟨numOfBool k.d - numOfBool k.a, 0, numOfBool k.s - numOfBool k.w⟩ := by
    simp only [Vec3.sub, frontVector, sideVector, Vec3.mk.injEq]
    refine ⟨by ring, by ring, by ring⟩
  constructor
  · rw [normalizedDirection, hsub]
  · rintro ⟨h1, h2⟩
    have hz : (⟨numOfBool k.d - numOfBool k.a, 0,
        numOfBool k.s - numOfBool k.w⟩ : Vec3) = ⟨0, 0, 0⟩ := by
      rw [Vec3.mk.injEq]
      refine ⟨by linarith, rfl, h1⟩
    rw [normalizedDirection, hsub, hz]
    exact normalize_zero

/-- C1, witness: at the all-released keyboard state both axes are zero and
the computed direction is the zero vector. -/
theorem c1_direction_formula_witness :
    normalizedDirection initKeyState = ⟨0, 0, 0⟩ :=
  (c1_direction_formula initKeyState).2 (by norm_num [initKeyState, numOfBool])

/-- C2, counterexample: with forward and jump pressed and the body at rest
(grounded), the frame issues the movement command and then the jump
command, but the jump command's z component is the cached engine-reported
velocity `0`, not the `−5` just computed by the movement step — so the
jump command does not preserve the horizontal components just computed. -/
theorem c2_counterexample :
    (runFrame inpJump).commands = [moveCommand inpJump, jumpCommand inpJump] ∧
    (moveCommand inpJump).z = -5 ∧ (jumpCommand inpJump).z = 0 ∧
    (jumpCommand inpJump).z ≠ (moveCommand inpJump).z := by
  have hdir : direction keysWSpace eulerZero = ⟨0, 0, -5⟩ :=
    direction_onlyW keysWSpace rfl rfl rfl rfl
  have hm : (moveCommand inpJump).z = -5 := by
    simp [moveCommand, inpJump, hdir]
  have hj : (jumpCommand inpJump).z = 0 := rfl
  refine ⟨?_, hm, hj, ?_⟩
  · refine runFrame_commands_jump inpJump ⟨rfl, ?_⟩
    have : |(inpJump.vel.y : ℝ)| = 0 := by
      simp [inpJump]
    rw [this, jumpThreshold]
    norm_num
  · rw [hm, hj]
    norm_num

/-- C2, amended: whenever the jump key is pressed and the grounded
heuristic holds, the frame issues the movement command followed by a jump
command whose vertical component is the jump-force constant and whose
horizontal (x, z) components are the cached velocity snapshot last
reported by the physics engine — not the horizontal components just
computed by the movement step. -/
theorem c2_jump_command (inp : FrameInput) (hs : inp.keys.space = true)
    (hg : |inp.vel.y| < jumpThreshold) :
    (runFrame inp).commands =
      [moveCommand inp, ⟨inp.vel.x, jumpForce, inp.vel.z⟩] :=
  runFrame_commands_jump inp ⟨hs, hg⟩

/-- C2, witness: the amended statement evaluated at the concrete grounded
frame input. -/
theorem c2_jump_command_witness :
    (runFrame inpJump).commands =
      [moveCommand inpJump, ⟨inpJump.vel.x, jumpForce, inpJump.vel.z⟩] := by
  refine c2_jump_command inpJump rfl ?_
  have : |(inpJump.vel.y : ℝ)| = 0 := by simp [inpJump]
  rw [this, jumpThreshold]
  norm_num

/-- C3, counterexample: in `page.tsx` a key-down event for the
unrecognized key `q` does change the keyboard-state record — the handler
writes a new property `q: true` into the state object, so the record is
not left completely unchanged. -/
theorem c3_counterexample :
    handleKeyDownPage initKeyState "q" ≠ initKeyState ∧
    handleKeyDownPage initKeyState "q" =
      { initKeyState with extra := [("q", true)] } := by
  exact ⟨by decide, by decide⟩

/-- C3, amended: for every key event whose lower-cased key is none of
`" "`, `w`, `s`, `a`, `d`, `space`, the five recognized flags are left
unchanged by both `page.tsx` handlers (though that variant records the
stray key as an extra property of the state object), and the typed
variant's handlers leave the record completely unchanged (from any state
with no stray extra properties, which is invariant there). -/
theorem c3_unrecognized_keys (st : KeyState) (key : String)
    (h0 : jsToLower key ≠ " ") (h1 : jsToLower key ≠ "w")
    (h2 : jsToLower key ≠ "s") (h3 : jsToLower key ≠ "a")
    (h4 : jsToLower key ≠ "d") (h5 : jsToLower key ≠ "space") :
    ((handleKeyDownPage st key).w = st.w ∧ (handleKeyDownPage st key).s = st.s ∧
     (handleKeyDownPage st key).a = st.a ∧ (handleKeyDownPage st key).d = st.d ∧
     (handleKeyDownPage st key).space = st.space) ∧
    ((handleKeyUpPage st key).w = st.w ∧ (handleKeyUpPage st key).s = st.s ∧
     (handleKeyUpPage st key).a = st.a ∧ (handleKeyUpPage st key).d = st.d ∧
     (handleKeyUpPage st key).space = st.space) ∧
    (st.extra = [] →
      handleKeyDownPart st key = st ∧ handleKeyUpPart st key = st) := by
  refine ⟨?_, ?_, fun hx => ⟨?_, ?_⟩⟩
  · simp [handleKeyDownPage, setKey, h0, h1, h2, h3, h4, h5]
  · simp [handleKeyUpPage, setKey, h0, h1, h2, h3, h4, h5]
  · simp [handleKeyDownPart, keyIn, KeyState.props, hx, h0, h1, h2, h3, h4, h5]
  · simp [handleKeyUpPart, keyIn, KeyState.props, hx, h0, h1, h2, h3, h4, h5]

/-- C3, witness: the amended statement evaluated at the initial state and
the unrecognized key `q`. -/
theorem c3_unrecognized_keys_witness :
    ((handleKeyDownPage initKeyState "q").w = initKeyState.w ∧
     (handleKeyDownPage initKeyState "q").s = initKeyState.s ∧
     (handleKeyDownPage initKeyState "q").a = initKeyState.a ∧
     (handleKeyDownPage initKeyState "q").d = initKeyState.d ∧
     (handleKeyDownPage initKeyState "q").space = initKeyState.space) ∧
    ((handleKeyUpPage initKeyState "q").w = initKeyState.w ∧
     (handleKeyUpPage initKeyState "q").s = initKeyState.s ∧
     (handleKeyUpPage initKeyState "q").a = initKeyState.a ∧
     (handleKeyUpPage initKeyState "q").d = initKeyState.d ∧
     (handleKeyUpPage initKeyState "q").space = initKeyState.space) ∧
    (initKeyState.extra = [] →
      handleKeyDownPart initKeyState "q" = initKeyState ∧
      handleKeyUpPart initKeyState "q" = initKeyState) :=
  c3_unrecognized_keys initKeyState "q" (by decide) (by decide) (by decide)
    (by decide) (by decide) (by decide)

/-- C4: for every frame input, the horizontal-movement velocity command is
the first command issued, and its vertical component is exactly the cached
vertical velocity last reported by the physics engine — it is never
overwritten with zero. -/
theorem c4_vertical_preserved (inp : FrameInput) :
    (runFrame inp).commands.head? = some (moveCommand inp) ∧
    (moveCommand inp).y = inp.vel.y :=
  ⟨runFrame_head inp, rfl⟩

/-- C5: when the jump key is pressed and `|last vertical velocity| < 0.1`,
the last velocity command of the frame is the jump command, whose vertical
component is the jump-force constant 5; when the grounded heuristic fails,
every command issued that frame keeps the vertical component equal to the
cached vertical velocity, so pressing jump changes nothing vertically. -/
theorem c5_jump_grounded (inp : FrameInput) :
    (inp.keys.space = true → |inp.vel.y| < jumpThreshold →
      (runFrame inp).commands.getLast? = some (jumpCommand inp) ∧
      (jumpCommand inp).y = jumpForce ∧ jumpForce = 5) ∧
    (¬ |inp.vel.y| < jumpThreshold →
      ∀ c ∈ (runFrame inp).commands, c.y = inp.vel.y) := by
  constructor
  · intro hs hg
    refine ⟨?_, rfl, rfl⟩
    rw [runFrame_commands_jump inp ⟨hs, hg⟩]
    rfl
  · intro hg
    rw [runFrame_commands_noJump inp fun hc => hg hc.2]
    intro c hc
    rw [List.mem_singleton] at hc
    rw [hc]
    rfl

/-- C5, witness: jump pressed with the body at rest — the grounded bound
`|0| < 0.1` holds and the frame's last command is the jump command. -/
theorem c5_jump_grounded_witness :
    (runFrame inpJump).commands.getLast? = some (jumpCommand inpJump) ∧
    (jumpCommand inpJump).y = jumpForce ∧ jumpForce = 5 := by
  refine (c5_jump_grounded inpJump).1 rfl ?_
  have h : |(inpJump.vel.y : ℝ)| = 0 := by simp [inpJump]
  rw [h, jumpThreshold]
  norm_num

/-- C6: the camera position written at the end of every frame is exactly
the cached body position last reported by the physics engine, whatever the
keyboard state — no smoothing or interpolation. -/
theorem c6_camera_follows (inp : FrameInput) :
    (runFrame inp).cameraPos = inp.pos := rfl

/-- C7: with none of the four movement keys pressed, the front and side
vectors are both zero, normalizing the zero-length difference yields the
zero vector (the total `normalize` divides by `length() || 1`, raising no
error), and the movement command's horizontal components are both zero. -/
theorem c7_zero_direction (k : KeyState) (vel pos : Vec3) (rot : Euler)
    (hw : k.w = false) (hs : k.s = false) (ha : k.a = false)
    (hd : k.d = false) :
    frontVector k = ⟨0, 0, 0⟩ ∧ sideVector k = ⟨0, 0, 0⟩ ∧
    normalizedDirection k = ⟨0, 0, 0⟩ ∧
    moveCommand (mkInput k vel pos rot) = ⟨0, vel.y, 0⟩ ∧
    (runFrame (mkInput k vel pos rot)).commands.head? =
      some ⟨0, vel.y, 0⟩ := by
  have hf : frontVector k = ⟨0, 0, 0⟩ := by
    simp [frontVector, hw, hs, numOfBool]
  have hsv : sideVector k = ⟨0, 0, 0⟩ := by
    simp [sideVector, ha, hd, numOfBool]
  have hn : normalizedDirection k = ⟨0, 0, 0⟩ := by
    rw [normalizedDirection, hf, hsv]
    have hz : Vec3.sub ⟨0, 0, 0⟩ ⟨0, 0, 0⟩ = ⟨0, 0, 0⟩ := by
      simp [Vec3.sub]
    rw [hz]
    exact normalize_zero
  have hdir : direction k rot = ⟨0, 0, 0⟩ := by
    rw [direction, hn]
    have hmul : Vec3.multiplyScalar ⟨0, 0, 0⟩ moveSpeed = ⟨0, 0, 0⟩ := by
      simp [Vec3.multiplyScalar]
    rw [hmul]
    exact applyEuler_zeroVec rot
  have hm : moveCommand (mkInput k vel pos rot) = ⟨0, vel.y, 0⟩ := by
    simp [moveCommand, mkInput, hdir]
  refine ⟨hf, hsv, hn, hm, ?_⟩
  rw [runFrame_head, hm]

/-- C7, witness: the statement evaluated at the all-released keyboard
state, a resting body and an unrotated camera. -/
theorem c7_zero_direction_witness :
    frontVector initKeyState = ⟨0, 0, 0⟩ ∧
    sideVector initKeyState = ⟨0, 0, 0⟩ ∧
    normalizedDirection initKeyState = ⟨0, 0, 0⟩ ∧
    moveCommand (mkInput initKeyState ⟨0, 0, 0⟩ ⟨0, 0, 0⟩ eulerZero) =
      ⟨0, (Vec3.mk 0 0 0).y, 0⟩ ∧
    (runFrame (mkInput initKeyState ⟨0, 0, 0⟩ ⟨0, 0, 0⟩
      eulerZero)).commands.head? = some ⟨0, (Vec3.mk 0 0 0).y, 0⟩ :=
  c7_zero_direction initKeyState ⟨0, 0, 0⟩ ⟨0, 0, 0⟩ eulerZero rfl rfl rfl rfl

/-- C8, counterexample: in `page.tsx` a mount followed by a teardown does
not restore the subscription state — the two subscription effects return
no cleanup, so the position and velocity subscriptions are never
released. -/
theorem c8_counterexample :
    pageSubscriptionCleanup (pageSubscriptionEffects ⟨0, 0⟩) ≠ ⟨0, 0⟩ := by
  decide

/-- C8, amended: in the typed variant, teardown releases exactly the
subscriptions established on mount (cleanup restores the subscription
counts); in `page.tsx` the teardown releases nothing, leaving both
subscriptions active. -/
theorem c8_subscriptions (s : SubscriptionState) :
    partSubscriptionCleanup (partSubscriptionEffects s) = s ∧
    pageSubscriptionCleanup (pageSubscriptionEffects s) =
      pageSubscriptionEffects s := by
  obtain ⟨p, v⟩ := s
  exact ⟨by simp [partSubscriptionCleanup, partSubscriptionEffects], rfl⟩

/-- C9: with only the forward key pressed and an identity camera rotation,
the normalized direction is `(0, 0, −1)`, the scaled rotated direction is
`(0, 0, −5)`, and the movement command's horizontal components are
`x = 0`, `z = −5`. -/
theorem c9_forward_unrotated (vel pos : Vec3) :
    normalizedDirection keysW = ⟨0, 0, -1⟩ ∧
    direction keysW eulerZero = ⟨0, 0, -5⟩ ∧
    (moveCommand (mkInput keysW vel pos eulerZero)).x = 0 ∧
    (moveCommand (mkInput keysW vel pos eulerZero)).z = -5 := by
  have h1 := normalizedDirection_onlyW keysW rfl rfl rfl rfl
  have h2 := direction_onlyW keysW rfl rfl rfl rfl
  refine ⟨h1, h2, ?_, ?_⟩ <;> simp [moveCommand, mkInput, h2]

/-- C10: for each of the five recognized keys and every prior keyboard
state, key-down sets exactly that key's flag to true and key-up to false,
leaving every other field of the record unchanged, in both variants. -/
theorem c10_recognized_keys (st : KeyState) :
    handleKeyDownPage st "w" = { st with w := true } ∧
    handleKeyUpPage st "w" = { st with w := false } ∧
    handleKeyDownPart st "w" = { st with w := true } ∧
    handleKeyUpPart st "w" = { st with w := false } ∧
    handleKeyDownPage st "s" = { st with s := true } ∧
    handleKeyUpPage st "s" = { st with s := false } ∧
    handleKeyDownPart st "s" = { st with s := true } ∧
    handleKeyUpPart st "s" = { st with s := false } ∧
    handleKeyDownPage st "a" = { st with a := true } ∧
    handleKeyUpPage st "a" = { st with a := false } ∧
    handleKeyDownPart st "a" = { st with a := true } ∧
    handleKeyUpPart st "a" = { st with a := false } ∧
    handleKeyDownPage st "d" = { st with d := true } ∧
    handleKeyUpPage st "d" = { st with d := false } ∧
    handleKeyDownPart st "d" = { st with d := true } ∧
    handleKeyUpPart st "d" = { st with d := false } ∧
    handleKeyDownPage st " " = { st with space := true } ∧
    handleKeyUpPage st " " = { st with space := false } ∧
    handleKeyDownPart st " " = { st with space := true } ∧
    handleKeyUpPart st " " = { st with space := false } :=
  ⟨rfl, rfl, rfl, rfl, rfl, rfl, rfl, rfl, rfl, rfl,
   rfl, rfl, rfl, rfl, rfl, rfl, rfl, rfl, rfl, rfl⟩

end ThreeJsBasic
